import Mathlib

/-!
Verification of the Dataform VS Code extension adapter (src/vscode/extension.ts)
against its natural-language specification.

The embedding models the host environment (active editor, workspace folders,
files at the workspace root, configuration, installed extensions) as an
explicit `Env` record, and each operation of the adapter as a pure function
producing an outcome together with a trace of observable effects (UI messages
shown, protocol requests sent, configuration writes).
-/

namespace DataformExt

/-- A document/folder URI, as used by the host: a scheme and a file-system path. -/
structure Uri where
  scheme : String
  fsPath : String
deriving DecidableEq

/-- A text document, identified by its URI. -/
structure TextDocument where
  uri : Uri
deriving DecidableEq

/-- A text editor, holding the document it displays. -/
structure TextEditor where
  document : TextDocument
deriving DecidableEq

/-- A workspace folder, identified by its URI. -/
structure WorkspaceFolder where
  uri : Uri
deriving DecidableEq

/-- A JavaScript value as far as this adapter observes one: either
`undefined` or some concrete (string-rendered) value. -/
inductive JsValue where
  | undefined
  | str (s : String)
deriving DecidableEq

/-- Configuration scopes of `workspace.getConfiguration(...).update`. -/
inductive ConfigurationTarget where
  | Global
  | Workspace
  | WorkspaceFolderTarget
deriving DecidableEq

/-- The host environment visible to the adapter during one invocation. -/
structure Env where
  /-- `vscode.window.activeTextEditor` (`none` models `undefined`). -/
  activeTextEditor : Option TextEditor
  /-- `vscode.workspace.getWorkspaceFolder`. -/
  getWorkspaceFolder : Uri → Option WorkspaceFolder
  /-- The names of the files lying directly under a workspace folder root
  (what `findFiles` with a non-globstar `RelativePattern` searches). -/
  rootFiles : WorkspaceFolder → List String
  /-- `vscode.workspace.asRelativePath` with `includeWorkspaceFolder = false`. -/
  asRelativePath : Uri → String
  /-- The external process response to a "format" request. -/
  formatResponse : JsValue
  /-- The `dataform.recommendYamlExtension` configuration flag. -/
  recommendYamlExtension : Bool
  /-- Whether `vscode.extensions.getExtension` finds a given extension id. -/
  extensionInstalled : String → Bool
  /-- The choice the user makes on the advisory prompt (`none` = dismissal). -/
  promptSelection : Option String

/-- A locator error value (`new Error(message)` in the source). -/
structure Err where
  message : String
deriving DecidableEq

/-- `new Error("Dataform files outside of a workspace are not supported.")` -/
def noWorkspaceError : Err :=
  ⟨"Dataform files outside of a workspace are not supported."⟩

/-- `new Error("Remote Dataform files are not supported.")` -/
def remoteUnsupportedError : Err :=
  ⟨"Remote Dataform files are not supported."⟩

/-- `new Error("Workspaces without workflow_settings.yaml (or dataform.json) are not supported.")` -/
def missingProjectMarkerError : Err :=
  ⟨"Workspaces without workflow_settings.yaml (or dataform.json) are not supported."⟩

/-- Outcome of `getProjectDirPath`: a thrown exception (dereferencing an
`undefined` active editor), a returned `Error` value, or a returned path. -/
inductive LocOutcome where
  | thrown
  | err (e : Err)
  | ok (path : String)
deriving DecidableEq

/-- Observable side effects of the project locator. -/
inductive LocEffect where
  | findFilesCall (pattern : String) (maxResults : Nat) (token : Nat)
deriving DecidableEq

/-- The glob pattern `\x7bworkflow_settings.yaml,dataform.json\x7d` of the
`RelativePattern` built by `getProjectDirPath`. -/
def markerPattern : String := "\x7bworkflow_settings.yaml,dataform.json\x7d"

/-- Whether a root file name matches the marker pattern. -/
def matchesMarkerPattern (name : String) : Bool :=
  name == "workflow_settings.yaml" || name == "dataform.json"

/-- `vscode.workspace.findFiles` restricted to the marker pattern over the
files directly under the folder root, truncated at `maxResults`. -/
def findFiles (files : List String) (maxResults : Nat) : List String :=
  (files.filter matchesMarkerPattern).take maxResults

/-- `getProjectDirPath` from the source, with its effect trace:
checks the active document is in a workspace folder, that the folder is
local, and that a Dataform settings file exists at the root. -/
def getProjectDirPathRun (env : Env) (token : Nat) : LocOutcome × List LocEffect :=
  match env.activeTextEditor with
  | none => (.thrown, [])
  | some editor =>
    match env.getWorkspaceFolder editor.document.uri with
    | none => (.err noWorkspaceError, [])
    | some folder =>
      if folder.uri.scheme ≠ "file" then
        (.err remoteUnsupportedError, [])
      else
        let yamls := findFiles (env.rootFiles folder) 1
        let effects := [LocEffect.findFilesCall markerPattern 1 token]
        if yamls.length = 0 then
          (.err missingProjectMarkerError, effects)
        else
          (.ok folder.uri.fsPath, effects)

/-- The outcome of `getProjectDirPath`. -/
def getProjectDirPath (env : Env) (token : Nat) : LocOutcome :=
  (getProjectDirPathRun env token).1

/-- Observable side effects of the format action. -/
inductive FmtEffect where
  | showErrorMessage (msg : String)
  | sendRequest (method : String) (args : List String) (token : Nat)
deriving DecidableEq

/-- One completed run of the format action: its effect trace and the value
the async function resolves with. -/
structure FormatRun where
  effects : List FmtEffect
  result : JsValue
deriving DecidableEq

/-- Number of protocol requests in a format-action effect trace. -/
def countSendRequests (es : List FmtEffect) : Nat :=
  (es.filter fun e => match e with
    | .sendRequest _ _ _ => true
    | _ => false).length

/-- Number of error messages shown in a format-action effect trace. -/
def countErrorMessages (es : List FmtEffect) : Nat :=
  (es.filter fun e => match e with
    | .showErrorMessage _ => true
    | _ => false).length

/-- `provideDocumentFormattingEdits` from the source. `none` models a thrown
exception. On a locator error value, it shows the message and returns
(resolving with `undefined`); otherwise it sends one "format" request with
`[projectDir, relativePath]` and the same token, discards the awaited
response, and falls off the end (resolving with `undefined`). -/
def provideDocumentFormattingEdits (env : Env) (token : Nat) : Option FormatRun :=
  match getProjectDirPath env token with
  | .thrown => none
  | .err e => some ⟨[.showErrorMessage e.message], .undefined⟩
  | .ok projectDir =>
    match env.activeTextEditor with
    | none => none
    | some editor =>
      let action := env.asRelativePath editor.document.uri
      let _response := env.formatResponse
      some ⟨[.sendRequest "format" [projectDir, action] token], .undefined⟩

/-- Severity of a UI message shown by the host. -/
inductive UiSeverity where
  | error
  | info
deriving DecidableEq

/-- A UI message shown by the host. -/
structure UiMessage where
  severity : UiSeverity
  text : String
deriving DecidableEq

/-- The notification handlers registered in `activate`:
"error" shows an error message, "info" and "success" show an
informational message. -/
def notificationHandlers : List (String × (String → UiMessage)) :=
  [("error", fun m => ⟨.error, m⟩),
   ("info", fun m => ⟨.info, m⟩),
   ("success", fun m => ⟨.info, m⟩)]

/-- The UI messages produced when the external process emits one
notification on `channel` carrying `m`: every registered handler for that
channel runs once. -/
def emitNotification (channel : String) (m : String) : List UiMessage :=
  (notificationHandlers.filter fun h => h.1 == channel).map fun h => h.2 m

/-- Effects of the first-run advisory. -/
inductive AdvEffect where
  | showPrompt (message : String) (choices : List String)
  | openExternal (url : String)
  | updateConfig (sectionName : String) (key : String) (value : Bool)
      (target : ConfigurationTarget)
deriving DecidableEq

/-- The advisory prompt text. -/
def yamlPromptMessage : String :=
  "The Dataform extension recommends installing the YAML extension for workflow_settings.yaml support."

/-- The first prompt choice. -/
def installChoice : String := "Install"

/-- The second prompt choice. -/
def dontShowAgainChoice : String := "Don\x27t show again"

/-- The installation link opened on "Install". -/
def yamlExtensionUrl : String := "vscode:extension/redhat.vscode-yaml"

/-- The `then` continuation of the advisory prompt: open the link on
"Install", persist the flag as false at global scope on the opt-out choice,
do nothing otherwise (including dismissal). -/
def selectionEffects (selection : Option String) : List AdvEffect :=
  match selection with
  | some s =>
    if s = installChoice then
      [.openExternal yamlExtensionUrl]
    else if s = dontShowAgainChoice then
      [.updateConfig "dataform" "recommendYamlExtension" false .Global]
    else []
  | none => []

/-- The first-run advisory from `activate`: if the flag is enabled and the
YAML extension is absent, show the two-choice prompt and act on the
selection; otherwise do nothing. -/
def advisoryRun (env : Env) : List AdvEffect :=
  if env.recommendYamlExtension then
    if env.extensionInstalled "redhat.vscode-yaml" then []
    else
      .showPrompt yamlPromptMessage [installChoice, dontShowAgainChoice]
        :: selectionEffects env.promptSelection
  else []

/-- Events of `activate`, in execution order. -/
inductive ActEvent where
  | createClient
  | registerCommand (id : String)
  | registerFormatter (lang : String)
  | pushSubscriptions
  | clientStart
  | awaitReady
  | onNotification (channel : String)
  | advisory (e : AdvEffect)
deriving DecidableEq

/-- The fixed prefix of the activation sequence, up to and including the
registration of the three notification handlers. -/
def activatePrefix : List ActEvent :=
  [.createClient,
   .registerCommand "dataform.compile",
   .registerFormatter "sqlx",
   .pushSubscriptions,
   .clientStart,
   .awaitReady,
   .onNotification "error",
   .onNotification "info",
   .onNotification "success"]

/-- The full activation sequence: the fixed prefix followed by the
first-run advisory. -/
def activateTrace (env : Env) : List ActEvent :=
  activatePrefix ++ (advisoryRun env).map ActEvent.advisory

/-! Concrete sample environments used by the witness theorems. -/

/-- A sample local document URI. -/
def sampleDocUri : Uri := ⟨"file", "/workspace/definitions/a.sqlx"⟩

/-- A sample active editor on that document. -/
def sampleEditor : TextEditor := ⟨⟨sampleDocUri⟩⟩

/-- A sample local workspace folder. -/
def sampleFolder : WorkspaceFolder := ⟨⟨"file", "/workspace"⟩⟩

/-- A sample environment in which the locator succeeds: an active editor in
a local workspace folder whose root holds `workflow_settings.yaml`. -/
def baseEnv : Env where
  activeTextEditor := some sampleEditor
  getWorkspaceFolder := fun _ => some sampleFolder
  rootFiles := fun _ => ["workflow_settings.yaml", "definitions"]
  asRelativePath := fun _ => "definitions/a.sqlx"
  formatResponse := .str "formatted edits"
  recommendYamlExtension := true
  extensionInstalled := fun _ => false
  promptSelection := none

/-- `baseEnv` with no active text editor. -/
def envNoEditor : Env := { baseEnv with activeTextEditor := none }

/-- `baseEnv` with the active document outside every workspace folder. -/
def envNoFolder : Env := { baseEnv with getWorkspaceFolder := fun _ => none }

/-- `baseEnv` with a non-local workspace folder. -/
def envRemote : Env :=
  { baseEnv with getWorkspaceFolder := fun _ => some ⟨⟨"vscode-remote", "/workspace"⟩⟩ }

/-- `baseEnv` with no Dataform marker file at the workspace root. -/
def envNoMarker : Env := { baseEnv with rootFiles := fun _ => ["README.md"] }

/-- `baseEnv` where the user picks the opt-out choice on the advisory. -/
def envDontShow : Env := { baseEnv with promptSelection := some dontShowAgainChoice }

/-- The marker search comes up empty exactly when neither
`workflow_settings.yaml` nor `dataform.json` is among the root files. -/
theorem findFiles_empty_iff (files : List String) :
    (findFiles files 1).length = 0 ↔
      ("workflow_settings.yaml" ∉ files ∧ "dataform.json" ∉ files) := by
  unfold findFiles
  rw [List.length_take]
  constructor
  · intro h0
    have hfe : files.filter matchesMarkerPattern = [] := by
      rcases Nat.min_eq_zero_iff.mp h0 with h | h
      · omega
      · exact List.length_eq_zero.mp h
    rw [List.filter_eq_nil_iff] at hfe
    refine ⟨fun hw => ?_, fun hd => ?_⟩
    · have := hfe _ hw
      simp [matchesMarkerPattern] at this
    · have := hfe _ hd
      simp [matchesMarkerPattern] at this
  · rintro ⟨hw, hd⟩
    have hfe : files.filter matchesMarkerPattern = [] := by
      rw [List.filter_eq_nil_iff]
      intro a ha hpa
      simp [matchesMarkerPattern] at hpa
      rcases hpa with h | h
      · exact hw (h ▸ ha)
      · exact hd (h ▸ ha)
    rw [hfe]
    simp

/-- C1: whenever the Project Locator returns an error value, the format
action shows exactly one error message (the locator's message), sends no
request at all, and the locator error is a returned value, not a thrown
exception. -/
theorem format_on_locator_error (env : Env) (token : Nat) (e : Err)
    (h : getProjectDirPath env token = LocOutcome.err e) :
    provideDocumentFormattingEdits env token =
      some ⟨[FmtEffect.showErrorMessage e.message], JsValue.undefined⟩ ∧
    (∀ run, provideDocumentFormattingEdits env token = some run →
      countErrorMessages run.effects = 1 ∧ countSendRequests run.effects = 0) ∧
    getProjectDirPath env token ≠ LocOutcome.thrown := by
  have h1 : provideDocumentFormattingEdits env token =
      some ⟨[FmtEffect.showErrorMessage e.message], JsValue.undefined⟩ := by
    unfold provideDocumentFormattingEdits
    rw [h]
  refine ⟨h1, ?_, ?_⟩
  · intro run hrun
    rw [h1] at hrun
    cases Option.some.inj hrun
    exact ⟨rfl, rfl⟩
  · rw [h]
    intro hc
    exact LocOutcome.noConfusion hc

/-- C1 witness: with the active document outside every workspace folder,
the action shows the one locator message and sends nothing. -/
theorem format_on_locator_error_witness :
    provideDocumentFormattingEdits envNoFolder 7 =
      some ⟨[FmtEffect.showErrorMessage noWorkspaceError.message], JsValue.undefined⟩ ∧
    (∀ run, provideDocumentFormattingEdits envNoFolder 7 = some run →
      countErrorMessages run.effects = 1 ∧ countSendRequests run.effects = 0) ∧
    getProjectDirPath envNoFolder 7 ≠ LocOutcome.thrown :=
  format_on_locator_error envNoFolder 7 noWorkspaceError rfl

/-- C2: whenever the Project Locator succeeds, the format action sends
exactly one "format" request, with payload the resolved project directory
and the active document's workspace-relative path, carrying the same
cancellation token the host passed in. -/
theorem format_on_locator_ok (env : Env) (token : Nat) (p : String)
    (ed : TextEditor)
    (hed : env.activeTextEditor = some ed)
    (h : getProjectDirPath env token = LocOutcome.ok p) :
    provideDocumentFormattingEdits env token =
      some ⟨[FmtEffect.sendRequest "format"
        [p, env.asRelativePath ed.document.uri] token], JsValue.undefined⟩ ∧
    (∀ run, provideDocumentFormattingEdits env token = some run →
      countSendRequests run.effects = 1 ∧ countErrorMessages run.effects = 0) := by
  have h1 : provideDocumentFormattingEdits env token =
      some ⟨[FmtEffect.sendRequest "format"
        [p, env.asRelativePath ed.document.uri] token], JsValue.undefined⟩ := by
    unfold provideDocumentFormattingEdits
    rw [h, hed]
  refine ⟨h1, ?_⟩
  intro run hrun
  rw [h1] at hrun
  cases Option.some.inj hrun
  exact ⟨rfl, rfl⟩

/-- C2 witness: in a local workspace with a marker file, the action sends
the one "format" request with the project path, relative path and token. -/
theorem format_on_locator_ok_witness :
    provideDocumentFormattingEdits baseEnv 7 =
      some ⟨[FmtEffect.sendRequest "format"
        ["/workspace", baseEnv.asRelativePath sampleEditor.document.uri] 7],
        JsValue.undefined⟩ ∧
    (∀ run, provideDocumentFormattingEdits baseEnv 7 = some run →
      countSendRequests run.effects = 1 ∧ countErrorMessages run.effects = 0) :=
  format_on_locator_ok baseEnv 7 "/workspace" sampleEditor rfl rfl

/-- C3: for an active document in a local workspace folder, the locator
returns `MissingProjectMarker` exactly when neither marker file is directly
under the root, and returns the folder's file-system path otherwise. -/
theorem locator_marker_iff (env : Env) (token : Nat) (ed : TextEditor)
    (folder : WorkspaceFolder)
    (hed : env.activeTextEditor = some ed)
    (hfolder : env.getWorkspaceFolder ed.document.uri = some folder)
    (hscheme : folder.uri.scheme = "file") :
    (getProjectDirPath env token = LocOutcome.err missingProjectMarkerError ↔
      ("workflow_settings.yaml" ∉ env.rootFiles folder ∧
       "dataform.json" ∉ env.rootFiles folder)) ∧
    (("workflow_settings.yaml" ∈ env.rootFiles folder ∨
      "dataform.json" ∈ env.rootFiles folder) →
      getProjectDirPath env token = LocOutcome.ok folder.uri.fsPath) := by
  have key := findFiles_empty_iff (env.rootFiles folder)
  by_cases hmark : (findFiles (env.rootFiles folder) 1).length = 0
  · have h1 : getProjectDirPath env token =
        LocOutcome.err missingProjectMarkerError := by
      simp only [getProjectDirPath, getProjectDirPathRun, hed, hfolder]
      simp [hscheme, hmark]
    refine ⟨?_, ?_⟩
    · rw [h1]
      exact ⟨fun _ => key.mp hmark, fun _ => rfl⟩
    · intro hmem
      exfalso
      rcases key.mp hmark with ⟨hw, hd⟩
      rcases hmem with hm | hm
      · exact hw hm
      · exact hd hm
  · have h1 : getProjectDirPath env token = LocOutcome.ok folder.uri.fsPath := by
      simp only [getProjectDirPath, getProjectDirPathRun, hed, hfolder]
      simp [hscheme, hmark]
    refine ⟨?_, fun _ => h1⟩
    rw [h1]
    constructor
    · intro hc
      exact LocOutcome.noConfusion hc
    · intro hboth
      exact absurd (key.mpr hboth) hmark

/-- C3 witness: a local folder holding `workflow_settings.yaml` is not a
`MissingProjectMarker` failure, and the locator returns its path. -/
theorem locator_marker_iff_witness :
    (getProjectDirPath baseEnv 0 = LocOutcome.err missingProjectMarkerError ↔
      ("workflow_settings.yaml" ∉ baseEnv.rootFiles sampleFolder ∧
       "dataform.json" ∉ baseEnv.rootFiles sampleFolder)) ∧
    (("workflow_settings.yaml" ∈ baseEnv.rootFiles sampleFolder ∨
      "dataform.json" ∈ baseEnv.rootFiles sampleFolder) →
      getProjectDirPath baseEnv 0 = LocOutcome.ok sampleFolder.uri.fsPath) :=
  locator_marker_iff baseEnv 0 sampleEditor sampleFolder rfl rfl rfl

/-- C4: an active document outside every opened workspace folder makes the
locator return the `NoWorkspace` error value. -/
theorem locator_no_workspace (env : Env) (token : Nat) (ed : TextEditor)
    (hed : env.activeTextEditor = some ed)
    (hfolder : env.getWorkspaceFolder ed.document.uri = none) :
    getProjectDirPath env token = LocOutcome.err noWorkspaceError := by
  simp [getProjectDirPath, getProjectDirPathRun, hed, hfolder]

/-- C4 witness. -/
theorem locator_no_workspace_witness :
    getProjectDirPath envNoFolder 0 = LocOutcome.err noWorkspaceError :=
  locator_no_workspace envNoFolder 0 sampleEditor rfl rfl

/-- C5: a workspace folder with a non-"file" scheme makes the locator
return `RemoteUnsupported` without performing the marker-file search. -/
theorem locator_remote_unsupported (env : Env) (token : Nat) (ed : TextEditor)
    (folder : WorkspaceFolder)
    (hed : env.activeTextEditor = some ed)
    (hfolder : env.getWorkspaceFolder ed.document.uri = some folder)
    (hscheme : folder.uri.scheme ≠ "file") :
    getProjectDirPath env token = LocOutcome.err remoteUnsupportedError ∧
    (getProjectDirPathRun env token).2 = [] := by
  have h1 : getProjectDirPathRun env token =
      (LocOutcome.err remoteUnsupportedError, []) := by
    simp only [getProjectDirPathRun, hed, hfolder]
    simp [hscheme]
  exact ⟨by rw [getProjectDirPath, h1], by rw [h1]⟩

/-- C5 witness. -/
theorem locator_remote_unsupported_witness :
    getProjectDirPath envRemote 0 = LocOutcome.err remoteUnsupportedError ∧
    (getProjectDirPathRun envRemote 0).2 = [] :=
  locator_remote_unsupported envRemote 0 sampleEditor
    ⟨⟨"vscode-remote", "/workspace"⟩⟩ rfl rfl (by decide)

/-- C10: with no active text editor, the locator (and hence the format
action) throws instead of returning one of the three error values. -/
theorem locator_throws_without_editor (env : Env) (token : Nat)
    (hed : env.activeTextEditor = none) :
    getProjectDirPath env token = LocOutcome.thrown ∧
    (∀ e : Err, getProjectDirPath env token ≠ LocOutcome.err e) ∧
    provideDocumentFormattingEdits env token = none := by
  have h1 : getProjectDirPath env token = LocOutcome.thrown := by
    unfold getProjectDirPath getProjectDirPathRun
    rw [hed]
  refine ⟨h1, ?_, ?_⟩
  · intro e hc
    rw [h1] at hc
    exact LocOutcome.noConfusion hc
  · unfold provideDocumentFormattingEdits
    rw [h1]

/-- C10 witness. -/
theorem locator_throws_without_editor_witness :
    getProjectDirPath envNoEditor 0 = LocOutcome.thrown ∧
    (∀ e : Err, getProjectDirPath envNoEditor 0 ≠ LocOutcome.err e) ∧
    provideDocumentFormattingEdits envNoEditor 0 = none :=
  locator_throws_without_editor envNoEditor 0 rfl

/-- C6: each single emission on a notification channel yields exactly one
UI message: "error" at error severity, "info" and "success" at
informational severity. -/
theorem notification_relay (m : String) :
    emitNotification "error" m = [⟨UiSeverity.error, m⟩] ∧
    emitNotification "info" m = [⟨UiSeverity.info, m⟩] ∧
    emitNotification "success" m = [⟨UiSeverity.info, m⟩] ∧
    (emitNotification "error" m).length = 1 ∧
    (emitNotification "info" m).length = 1 ∧
    (emitNotification "success" m).length = 1 :=
  ⟨rfl, rfl, rfl, rfl, rfl, rfl⟩

/-- C6 witness (concrete message). -/
theorem notification_relay_witness :
    emitNotification "error" "boom" = [⟨UiSeverity.error, "boom"⟩] ∧
    emitNotification "info" "boom" = [⟨UiSeverity.info, "boom"⟩] ∧
    emitNotification "success" "boom" = [⟨UiSeverity.info, "boom"⟩] ∧
    (emitNotification "error" "boom").length = 1 ∧
    (emitNotification "info" "boom").length = 1 ∧
    (emitNotification "success" "boom").length = 1 :=
  notification_relay "boom"

/-- C7: in every activation, readiness is awaited at position 5 of the
event sequence, and every notification-handler registration occurs
strictly after it. -/
theorem handlers_registered_after_ready (env : Env) (i : Nat) (c : String)
    (h : (activateTrace env).get? i = some (ActEvent.onNotification c)) :
    (activateTrace env).get? 5 = some ActEvent.awaitReady ∧ 5 < i := by
  refine ⟨rfl, ?_⟩
  by_contra hle
  push_neg at hle
  interval_cases i <;> exact ActEvent.noConfusion (Option.some.inj h)

/-- C7 witness: the "error" handler registration sits after the readiness
wait. -/
theorem handlers_registered_after_ready_witness :
    (activateTrace baseEnv).get? 5 = some ActEvent.awaitReady ∧ 5 < 6 :=
  handlers_registered_after_ready baseEnv 6 "error" rfl

/-- C8: the advisory shows nothing when the flag is off or the YAML
extension is installed; when the flag is on and the extension is absent it
shows one prompt with exactly two choices, the opt-out choice writes the
flag to false at global scope, and dismissal writes nothing. -/
theorem first_run_advisory (env : Env) :
    ((env.recommendYamlExtension = false ∨
        env.extensionInstalled "redhat.vscode-yaml" = true) →
      advisoryRun env = []) ∧
    ((env.recommendYamlExtension = true ∧
        env.extensionInstalled "redhat.vscode-yaml" = false) →
      ((advisoryRun env).head? =
          some (.showPrompt yamlPromptMessage [installChoice, dontShowAgainChoice]) ∧
        [installChoice, dontShowAgainChoice].length = 2 ∧
        (env.promptSelection = some dontShowAgainChoice →
          advisoryRun env =
            [.showPrompt yamlPromptMessage [installChoice, dontShowAgainChoice],
             .updateConfig "dataform" "recommendYamlExtension" false
               ConfigurationTarget.Global]) ∧
        (env.promptSelection = none →
          advisoryRun env =
            [.showPrompt yamlPromptMessage [installChoice, dontShowAgainChoice]]))) := by
  constructor
  · rintro (hoff | hinst)
    · simp [advisoryRun, hoff]
    · simp [advisoryRun, hinst]
  · rintro ⟨hon, habs⟩
    have hrun : advisoryRun env =
        .showPrompt yamlPromptMessage [installChoice, dontShowAgainChoice]
          :: selectionEffects env.promptSelection := by
      simp [advisoryRun, hon, habs]
    refine ⟨by rw [hrun]; rfl, rfl, ?_, ?_⟩
    · intro hsel
      rw [hrun, hsel]
      rfl
    · intro hnone
      rw [hrun, hnone]
      rfl

/-- C8 witness: with the flag on, the extension absent and the opt-out
choice selected, the advisory shows the prompt and persists the flag off
at global scope. -/
theorem first_run_advisory_witness :
    advisoryRun envDontShow =
      [.showPrompt yamlPromptMessage [installChoice, dontShowAgainChoice],
       .updateConfig "dataform" "recommendYamlExtension" false
         ConfigurationTarget.Global] :=
  ((first_run_advisory envDontShow).2 ⟨rfl, rfl⟩).2.2.1 rfl

/-- C9 counterexample: the format action does not relay the raw "format"
response as its result: in a run where the external process answers with
a value, the action still resolves with `undefined`. -/
theorem format_result_is_undefined_not_response :
    baseEnv.formatResponse = JsValue.str "formatted edits" ∧
    (provideDocumentFormattingEdits baseEnv 0).map FormatRun.result =
      some JsValue.undefined ∧
    some JsValue.undefined ≠ some (JsValue.str "formatted edits") :=
  ⟨rfl, rfl, by decide⟩

/-- C9 amended: when the locator succeeds, the action performs no
transformation of the response into text edits and resolves with
`undefined`, discarding the response, whatever the response value is. -/
theorem format_discards_response (env : Env) (token : Nat) (p : String)
    (ed : TextEditor)
    (hed : env.activeTextEditor = some ed)
    (h : getProjectDirPath env token = LocOutcome.ok p) :
    (provideDocumentFormattingEdits env token).map FormatRun.result =
      some JsValue.undefined := by
  simp only [provideDocumentFormattingEdits, h, hed]
  rfl

/-- C9 amended witness. -/
theorem format_discards_response_witness :
    (provideDocumentFormattingEdits baseEnv 0).map FormatRun.result =
      some JsValue.undefined :=
  format_discards_response baseEnv 0 "/workspace" sampleEditor rfl rfl

end DataformExt
